import Mathlib

/-!
Shallow embedding of the reconciliation engine of the cognite-replicator
repository (files `cognite/replicator/replication.py`,
`cognite/replicator/assets.py`, `cognite/replicator/datapoints.py`).

Python values stored in an object's free-form `metadata` dict are modelled by
`MVal` (string, int, or Python `None`); Python dictionaries are modelled by
association lists with first-match lookup and in-place overwrite, matching
`dict` semantics for the unique-key dictionaries the code builds.  Fallible
Python code (KeyError on `d[k]`, ValueError/TypeError on `int(x)`,
AttributeError on `None.id`, and the `requests` ReadTimeout the retry wrapper
catches) is modelled with `Except PyErr`.
-/

namespace CogniteReplicator

/-- A Python metadata value: `str`, `int`, or `None`. -/
inductive MVal where
  | s (v : String)
  | i (v : Int)
  | pyNone
  deriving DecidableEq, Repr

/-- A Python metadata dict, as an association list with unique keys. -/
abbrev Metadata := List (String × MVal)

/-- The Python exceptions visible to the embedded code.  `int(None)` raises
TypeError; it is folded into `valueError` since no modelled code distinguishes
them.  `outOfFuel` is a modelling device only: the `while` loop of
`create_hierarchy` is bounded by an explicit fuel (the loop can only fail to
terminate on cyclic parent graphs, which no claim exercises). -/
inductive PyErr where
  | readTimeout
  | keyError
  | valueError
  | attributeError
  | outOfFuel
  deriving DecidableEq, Repr

/-- The fields of a CDF resource object (Asset/Event/FileMetadata/Sequence/
TimeSeries) that the reconciliation engine reads or writes.  Optional fields
are `Option`; a `None` metadata dict and an empty one behave identically in
every modelled function, so `metadata` is a plain list. -/
structure Obj where
  id : Option Int := Option.none
  external_id : Option String := Option.none
  name : Option String := Option.none
  description : Option String := Option.none
  source : Option String := Option.none
  parent_id : Option Int := Option.none
  last_updated_time : Option Int := Option.none
  metadata : Metadata := []
  deriving DecidableEq, Repr

deriving instance DecidableEq for Except

/-- Python truthiness of `d.get(k)` for a metadata value: `None` (absent key
or stored `None`), `0` and `""` are falsy. -/
def pyTruthy : Option MVal → Bool
  | Option.none => false
  | some (MVal.s v) => decide (v ≠ "")
  | some (MVal.i v) => decide (v ≠ 0)
  | some MVal.pyNone => false

/-- Python truthiness of an `Optional[int]`: `None` and `0` are falsy. -/
def pyTruthyOptInt : Option Int → Bool
  | Option.none => false
  | some v => decide (v ≠ 0)

/-- Dict lookup `m.get(k)` (first matching key). -/
def alGet {α β : Type} [DecidableEq α] (m : List (α × β)) (k : α) : Option β :=
  match m with
  | [] => Option.none
  | p :: rest => if p.1 = k then some p.2 else alGet rest k

/-- Dict assignment `m[k] = v`: overwrite in place when the key exists,
append otherwise (Python dicts keep insertion order). -/
def alSet {α β : Type} [DecidableEq α] (m : List (α × β)) (k : α) (v : β) :
    List (α × β) :=
  if m.any (fun p => decide (p.1 = k)) then
    m.map (fun p => if p.1 = k then (k, v) else p)
  else m ++ [(k, v)]

/-- Python `int(x)` on a metadata value. -/
def mvalInt : MVal → Except PyErr Int
  | MVal.i v => Except.ok v
  | MVal.s v =>
    match v.toInt? with
    | some n => Except.ok n
    | Option.none => Except.error PyErr.valueError
  | MVal.pyNone => Except.error PyErr.valueError

/-- Dict indexing `m[k]`: KeyError when the key is absent. -/
def dix (m : Metadata) (k : String) : Except PyErr MVal :=
  match alGet m k with
  | some v => Except.ok v
  | Option.none => Except.error PyErr.keyError

/-- The `src_dst_ids` dictionary of source id to destination id.  Its values
are destination object `.id` fields, hence `Option Int` (Python stores
whatever `obj.id` holds). -/
abbrev SrcDst := List (Int × Option Int)

/-- `dict.get(x)` where the key expression is an `Optional[int]`: the dicts in
question only hold `int` keys, so a `None` key is never found. -/
def idGet (m : List (Int × Obj)) : Option Int → Option Obj
  | Option.none => Option.none
  | some i => alGet m i

/-- `replication.get_asset_ids`, inner list comprehension
`[src_dst_ids_assets[i] for i in ids if i in src_dst_ids_assets]`. -/
def get_asset_ids_go (src_dst_ids_assets : SrcDst) : List Int → List (Option Int)
  | [] => []
  | i :: rest =>
    match alGet src_dst_ids_assets i with
    | some d => d :: get_asset_ids_go src_dst_ids_assets rest
    | Option.none => get_asset_ids_go src_dst_ids_assets rest

/-- `replication.get_asset_ids`: `None` input gives `None`, otherwise the
resolvable source asset ids are projected through the map, unresolvable ones
silently dropped. -/
def get_asset_ids (ids : Option (List Int)) (src_dst_ids_assets : SrcDst) :
    Option (List (Option Int)) :=
  match ids with
  | Option.none => Option.none
  | some l => some (get_asset_ids_go src_dst_ids_assets l)

/-- The metadata value `obj.id` is stored as (`None` when the id is unset). -/
def mvalOfOptInt : Option Int → MVal
  | some v => MVal.i v
  | Option.none => MVal.pyNone

/-- `replication.new_metadata`: copy of the object's metadata with the three
reserved provenance fields overwritten. -/
def new_metadata (obj : Obj) (project_src : String) (replicated_runtime : Int) :
    Metadata :=
  alSet
    (alSet (alSet obj.metadata "_replicatedSource" (MVal.s project_src))
      "_replicatedTime" (MVal.i replicated_runtime))
    "_replicatedInternalId" (mvalOfOptInt obj.id)

/-- `replication.make_id_object_map`, dict-comprehension accumulator: objects
with truthy metadata and a truthy `_replicatedInternalId` are keyed by
`int(...)` of that value; later duplicates overwrite earlier ones. -/
def make_id_object_map_go (acc : List (Int × Obj)) :
    List Obj → Except PyErr (List (Int × Obj))
  | [] => Except.ok acc
  | o :: rest =>
    if (!o.metadata.isEmpty) && pyTruthy (alGet o.metadata "_replicatedInternalId") then
      match alGet o.metadata "_replicatedInternalId" with
      | some v =>
        match mvalInt v with
        | Except.ok k => make_id_object_map_go (alSet acc k o) rest
        | Except.error e => Except.error e
      | Option.none => make_id_object_map_go acc rest
    else make_id_object_map_go acc rest

/-- `replication.make_id_object_map`. -/
def make_id_object_map (objects : List Obj) : Except PyErr (List (Int × Obj)) :=
  make_id_object_map_go [] objects

/-- `replication.existing_mapping`: fold the replicated objects into the
source-id to destination-id dict (`ids[int(m["_replicatedInternalId"])] = obj.id`
for each object with truthy metadata and a truthy `_replicatedInternalId`).
The `if not ids: ids = {}` line is the identity in this value model. -/
def existing_mapping : List Obj → SrcDst → Except PyErr SrcDst
  | [], ids => Except.ok ids
  | o :: rest, ids =>
    if (!o.metadata.isEmpty) && pyTruthy (alGet o.metadata "_replicatedInternalId") then
      match alGet o.metadata "_replicatedInternalId" with
      | some v =>
        match mvalInt v with
        | Except.ok k => existing_mapping rest (alSet ids k o.id)
        | Except.error e => Except.error e
      | Option.none => existing_mapping rest ids
    else existing_mapping rest ids

/-- `replication.find_objects_to_delete_not_replicated_in_dst`: ids of
destination objects whose metadata is falsy or whose `_replicatedSource`
entry is falsy. -/
def find_objects_to_delete_not_replicated_in_dst : List Obj → List (Option Int)
  | [] => []
  | o :: rest =>
    if o.metadata.isEmpty || !pyTruthy (alGet o.metadata "_replicatedSource") then
      o.id :: find_objects_to_delete_not_replicated_in_dst rest
    else find_objects_to_delete_not_replicated_in_dst rest

/-- `replication.find_objects_to_delete_if_not_in_src`, main loop over the
destination objects (`src_obj_ids` is the set `{obj.id for obj in src_objects}`). -/
def find_if_not_in_src_go (src_obj_ids : List (Option Int)) :
    List Obj → Except PyErr (List (Option Int))
  | [] => Except.ok []
  | o :: rest =>
    if (!o.metadata.isEmpty) && pyTruthy (alGet o.metadata "_replicatedInternalId") then
      match alGet o.metadata "_replicatedInternalId" with
      | some v =>
        match mvalInt v with
        | Except.ok k =>
          match find_if_not_in_src_go src_obj_ids rest with
          | Except.ok r =>
            if src_obj_ids.any (fun q => decide (q = some k)) then Except.ok r
            else Except.ok (o.id :: r)
          | Except.error e => Except.error e
        | Except.error e => Except.error e
      | Option.none => find_if_not_in_src_go src_obj_ids rest
    else find_if_not_in_src_go src_obj_ids rest

/-- `replication.find_objects_to_delete_if_not_in_src`. -/
def find_objects_to_delete_if_not_in_src (src_objects dst_objects : List Obj) :
    Except PyErr (List (Option Int)) :=
  find_if_not_in_src_go (src_objects.map (fun o => o.id)) dst_objects

/-- Which of the three output lists of `make_objects_batch` one source object
is appended to, and the object appended there. -/
inductive Batched where
  | toCreate (o : Obj)
  | toUpdate (o : Obj)
  | unchanged (o : Obj)
  deriving DecidableEq, Repr

/-- The body of the `for src_obj in src_objects` loop of
`replication.make_objects_batch`.  The `create`/`update` callbacks are the
source's callbacks with `project_src`, `replicated_runtime` and the optional
`depth` already applied (the source forwards those unchanged); they still
receive `src_dst_ids_assets` as the source passes it through.  `src_filter`
models the `Optional[List]` parameter, `[]` standing for both `None` and an
empty list (identical Python truthiness).  `exclude_fields` is fixed to its
default `None`, which no claim exercises.  Note the short-circuit: when
`src_obj.last_updated_time` is falsy (None or 0), `dst_obj.metadata["_replicatedTime"]`
is never read. -/
def make_objects_batch_step (cre : Obj → SrcDst → Except PyErr Obj)
    (upd : Obj → Obj → SrcDst → Except PyErr Obj)
    (src_id_dst_map : List (Int × Obj)) (src_dst_ids_assets : SrcDst)
    (src_filter : List Obj) (src_obj : Obj) : Except PyErr Batched :=
  match idGet src_id_dst_map src_obj.id with
  | some dst_obj =>
    if pyTruthyOptInt src_obj.last_updated_time = false then
      match upd src_obj dst_obj src_dst_ids_assets with
      | Except.ok u => Except.ok (Batched.toUpdate u)
      | Except.error e => Except.error e
    else
      match dix dst_obj.metadata "_replicatedTime" with
      | Except.error e => Except.error e
      | Except.ok tv =>
        match mvalInt tv with
        | Except.error e => Except.error e
        | Except.ok t =>
          if src_obj.last_updated_time.getD 0 > t then
            match upd src_obj dst_obj src_dst_ids_assets with
            | Except.ok u => Except.ok (Batched.toUpdate u)
            | Except.error e => Except.error e
          else Except.ok (Batched.unchanged dst_obj)
  | Option.none =>
    if src_filter.isEmpty then
      match cre src_obj src_dst_ids_assets with
      | Except.ok c => Except.ok (Batched.toCreate c)
      | Except.error e => Except.error e
    else if src_filter.any (fun f => decide (f.external_id = src_obj.external_id)) then
      Except.ok (Batched.unchanged src_obj)
    else
      match cre src_obj src_dst_ids_assets with
      | Except.ok c => Except.ok (Batched.toCreate c)
      | Except.error e => Except.error e

/-- `replication.make_objects_batch`: classify every source object and return
the (create, update, unchanged) lists, in input order.  An exception raised
while processing any object propagates out of the whole call, as in Python. -/
def make_objects_batch (cre : Obj → SrcDst → Except PyErr Obj)
    (upd : Obj → Obj → SrcDst → Except PyErr Obj) (src_objects : List Obj)
    (src_id_dst_map : List (Int × Obj)) (src_dst_ids_assets : SrcDst)
    (src_filter : List Obj) :
    Except PyErr (List Obj × List Obj × List Obj) :=
  match src_objects with
  | [] => Except.ok ([], [], [])
  | s :: rest =>
    match make_objects_batch_step cre upd src_id_dst_map src_dst_ids_assets src_filter s with
    | Except.error e => Except.error e
    | Except.ok b =>
      match make_objects_batch cre upd rest src_id_dst_map src_dst_ids_assets src_filter with
      | Except.error e => Except.error e
      | Except.ok r =>
        match b with
        | Batched.toCreate o => Except.ok (o :: r.1, r.2.1, r.2.2)
        | Batched.toUpdate o => Except.ok (r.1, o :: r.2.1, r.2.2)
        | Batched.unchanged o => Except.ok (r.1, r.2.1, o :: r.2.2)

/-- The `for i in range(tries)` loop of `replication.retry`.  The callee is
effectful (it may behave differently on each call), which is modelled by
threading a state `σ` through it; only `requests.exceptions.ReadTimeout` is
caught and retried, any other exception propagates, and on exhaustion the
never-assigned `ret = []` is returned. -/
def retryGo {σ : Type} (function : List Obj → σ → Except PyErr (List Obj) × σ)
    (objects : List Obj) : Nat → σ → Except PyErr (List Obj) × σ
  | 0, st => (Except.ok [], st)
  | n + 1, st =>
    match function objects st with
    | (Except.ok r, st') => (Except.ok r, st')
    | (Except.error PyErr.readTimeout, st') => retryGo function objects n st'
    | (Except.error e, st') => (Except.error e, st')

/-- `replication.retry`: empty input returns `[]` without calling the
function; otherwise up to 3 attempts. -/
def retry {σ : Type} (function : List Obj → σ → Except PyErr (List Obj) × σ)
    (objects : List Obj) (st : σ) : Except PyErr (List Obj) × σ :=
  if objects.isEmpty then (Except.ok [], st) else retryGo function objects 3 st

/-- The parent-id expression shared by `assets.build_asset_create` and
`assets.build_asset_update`:
`src_id_dst_map[src_asset.parent_id] if depth > 0 else None`.
At depth > 0 a missing key — including a `None` parent id, since the dict
only has `int` keys — raises KeyError. -/
def resolve_parent_id (src_asset : Obj) (src_id_dst_map : SrcDst) (depth : Nat) :
    Except PyErr (Option Int) :=
  if depth > 0 then
    match src_asset.parent_id with
    | Option.none => Except.error PyErr.keyError
    | some p =>
      match alGet src_id_dst_map p with
      | some d => Except.ok d
      | Option.none => Except.error PyErr.keyError
  else Except.ok Option.none

/-- `assets.build_asset_create`: a fresh destination asset copying the source
fields, with stamped metadata and the parent reference resolved through the
map (id stays unset; the server assigns it). -/
def build_asset_create (src_asset : Obj) (src_id_dst_map : SrcDst)
    (project_src : String) (runtime : Int) (depth : Nat) : Except PyErr Obj :=
  match resolve_parent_id src_asset src_id_dst_map depth with
  | Except.error e => Except.error e
  | Except.ok pid =>
    Except.ok
      { external_id := src_asset.external_id
        name := src_asset.name
        description := src_asset.description
        metadata := new_metadata src_asset project_src runtime
        source := src_asset.source
        parent_id := pid }

/-- `assets.build_asset_update`: overwrite the destination asset's fields from
the source asset (the destination keeps its own `id`). -/
def build_asset_update (src_asset dst_asset : Obj) (src_id_dst_map : SrcDst)
    (project_src : String) (runtime : Int) (depth : Nat) : Except PyErr Obj :=
  match resolve_parent_id src_asset src_id_dst_map depth with
  | Except.error e => Except.error e
  | Except.ok pid =>
    Except.ok
      { dst_asset with
        external_id := src_asset.external_id
        name := src_asset.name
        description := src_asset.description
        metadata := new_metadata src_asset project_src runtime
        source := src_asset.source
        parent_id := pid }

/-- `assets.find_children`: the assets whose `parent_id` is in the parent set
(`[None]` selects the roots; otherwise the set `{parent.id}`, which reads
`.id` and so would raise AttributeError on a stray `None`). -/
def find_children (assets : List Obj) (parents : List (Option Obj)) :
    Except PyErr (List Obj) :=
  if parents = [Option.none] then
    Except.ok (assets.filter (fun a => decide (a.parent_id = Option.none)))
  else
    match parents.mapM (fun p =>
        match p with
        | some o => Except.ok o.id
        | Option.none => Except.error PyErr.attributeError) with
    | Except.error e => Except.error e
    | Except.ok pids =>
      Except.ok (assets.filter (fun a => pids.any (fun q => decide (q = a.parent_id))))

/-- First loop of `assets.create_assets_replicated_id_validation`: split the
batch into assets already present in the destination (looked up by
`_replicatedInternalId`, metadata-truthiness guarded; the
`asset.metadata["_replicatedInternalId"]` index can raise KeyError) and the
ones still missing. -/
def carvSplit {σ : Type} (function_list : MVal → σ → List Obj) (st : σ) :
    List Obj → Except PyErr (List Obj × List Obj)
  | [] => Except.ok ([], [])
  | a :: rest =>
    match
      (if a.metadata.isEmpty then Except.ok ([] : List Obj)
       else
         match dix a.metadata "_replicatedInternalId" with
         | Except.ok v => Except.ok (function_list v st)
         | Except.error e => Except.error e) with
    | Except.error e => Except.error e
    | Except.ok found =>
      match carvSplit function_list st rest with
      | Except.error e => Except.error e
      | Except.ok (r, miss) =>
        if found.length > 0 then Except.ok (found ++ r, miss)
        else Except.ok (r, a :: miss)

/-- `assets.create_assets_replicated_id_validation`: return the already-created
assets found by the list lookup plus the result of bulk-creating the missing
ones. -/
def create_assets_replicated_id_validation {σ : Type}
    (function_create : List Obj → σ → Except PyErr (List Obj) × σ)
    (function_list : MVal → σ → List Obj)
    (assets : List Obj) (st : σ) : Except PyErr (List Obj) × σ :=
  match carvSplit function_list st assets with
  | Except.error e => (Except.error e, st)
  | Except.ok (found, missing) =>
    if missing.length > 0 then
      match function_create missing st with
      | (Except.ok created, st') => (Except.ok (found ++ created), st')
      | (Except.error e, st') => (Except.error e, st')
    else (Except.ok found, st)

/-- The destination-store client `create_hierarchy` drives, with the three
operations the walker uses (`client.assets.create`, `client.assets.update`,
`client.assets.list(limit=1, metadata={"_replicatedInternalId": v})`), over an
abstract store state `σ`. -/
structure AClient (σ : Type) where
  assets_create : List Obj → σ → Except PyErr (List Obj) × σ
  assets_update : List Obj → σ → Except PyErr (List Obj) × σ
  assets_list : MVal → σ → List Obj

/-- The `while children:` loop of `assets.create_hierarchy`.  `fuel` bounds the
number of depths (the source loop is unbounded; any acyclic input finishes
within `src_assets.length` iterations, so the wrapper passes
`src_assets.length + 1`).  Subtree arguments and `subtree_max_depth` are at
their `None` defaults, which no claim exercises. -/
def create_hierarchy_go {σ : Type} (client : AClient σ) (src_assets : List Obj)
    (project_src : String) (runtime : Int) (src_id_dst_asset : List (Int × Obj)) :
    Nat → List Obj → SrcDst → Nat → σ → Except PyErr (SrcDst × σ)
  | 0, children, src_dst_ids, _, st =>
    if children.isEmpty then Except.ok (src_dst_ids, st)
    else Except.error PyErr.outOfFuel
  | fuel + 1, children, src_dst_ids, depth, st =>
    if children.isEmpty then Except.ok (src_dst_ids, st)
    else
      match make_objects_batch
          (fun s m => build_asset_create s m project_src runtime depth)
          (fun s d m => build_asset_update s d m project_src runtime depth)
          children src_id_dst_asset src_dst_ids [] with
      | Except.error e => Except.error e
      | Except.ok (create_assets, update_assets, unchanged_assets) =>
        match retry
            (create_assets_replicated_id_validation client.assets_create client.assets_list)
            create_assets st with
        | (Except.error e, _) => Except.error e
        | (Except.ok created_assets, st1) =>
          match retry client.assets_update update_assets st1 with
          | (Except.error e, _) => Except.error e
          | (Except.ok updated_assets, st2) =>
            match existing_mapping (created_assets ++ updated_assets ++ unchanged_assets)
                src_dst_ids with
            | Except.error e => Except.error e
            | Except.ok ids' =>
              match find_children src_assets (children.map some) with
              | Except.error e => Except.error e
              | Except.ok children' =>
                create_hierarchy_go client src_assets project_src runtime
                  src_id_dst_asset fuel children' ids' (depth + 1) st2

/-- `assets.create_hierarchy`: walk the source tree depth by depth, returning
the final source-id to destination-id map together with the store state. -/
def create_hierarchy {σ : Type} (client : AClient σ) (src_assets dst_assets : List Obj)
    (project_src : String) (runtime : Int) (st : σ) : Except PyErr (SrcDst × σ) :=
  match find_children src_assets [Option.none] with
  | Except.error e => Except.error e
  | Except.ok children =>
    match make_id_object_map dst_assets with
    | Except.error e => Except.error e
    | Except.ok src_id_dst_asset =>
      create_hierarchy_go client src_assets project_src runtime src_id_dst_asset
        (src_assets.length + 1) children [] 0 st

/-- State of the modelled destination object store: the id counter and the
assets created so far. -/
structure DstState where
  nextId : Int
  store : List Obj
  deriving DecidableEq, Repr

/-- Assign fresh ids `n, n+1, ...` to a batch of created objects. -/
def assignIds : Int → List Obj → List Obj
  | _, [] => []
  | n, a :: rest => { a with id := some n } :: assignIds (n + 1) rest

/-- Modelled from the spec: the external Object Store collaborator of §6
(`create` "returns objects with assigned ids", `update` replaces by id,
`list` filters by the `_replicatedInternalId` metadata entry with `limit=1`).
The concrete client is out of scope of the repository (a vendor SDK), so it is
realized as a deterministic store that satisfies that contract. -/
def specClient : AClient DstState where
  assets_create := fun assets st =>
    let created := assignIds st.nextId assets
    (Except.ok created, ⟨st.nextId + assets.length, st.store ++ created⟩)
  assets_update := fun assets st =>
    (Except.ok assets,
      ⟨st.nextId,
        st.store.map (fun o =>
          match assets.find? (fun a => decide (a.id = o.id)) with
          | some a => a
          | Option.none => o)⟩)
  assets_list := fun v st =>
    (st.store.filter
      (fun a => decide (alGet a.metadata "_replicatedInternalId" = some v))).take 1

/-- A client whose bulk create always raises the transient ReadTimeout —
the behavior of a destination store whose writes keep timing out. -/
def timeoutClient : AClient Unit where
  assets_create := fun _ st => (Except.error PyErr.readTimeout, st)
  assets_update := fun assets st => (Except.ok assets, st)
  assets_list := fun _ _ => []

/-- `datapoints._get_chunk`: the `chunk_number`-th of `num_chunks` as-even-as-
possible slices of `lst`. -/
def _get_chunk {α : Type} (lst : List α) (num_chunks chunk_number : Nat) : List α :=
  let chunk_size := lst.length / num_chunks
  let num_excess_elements := lst.length % num_chunks
  let start_index := chunk_number * chunk_size + min chunk_number num_excess_elements
  let end_index := start_index + chunk_size +
    (if chunk_number < num_excess_elements then 1 else 0)
  (lst.drop start_index).take (end_index - start_index)

/-- Start index of chunk `k` when a list of length `N` is cut into `c` chunks. -/
def chunkStart (N c k : Nat) : Nat := k * (N / c) + min k (N % c)

/-! ### Concrete scenario objects used by the closed theorems and witnesses -/

/-- Source root of the 3-level tree scenario. -/
def rootAsset : Obj := { id := some 1, external_id := some "r-x", name := some "root" }

/-- Source child (parent = root) of the 3-level tree scenario. -/
def childAsset : Obj := { id := some 2, external_id := some "c-x", parent_id := some 1 }

/-- Source grandchild (parent = child) of the 3-level tree scenario. -/
def grandAsset : Obj := { id := some 3, external_id := some "g-x", parent_id := some 2 }

/-- A destination object stamped with `_replicatedTime = 0`. -/
def tieDst : Obj := { id := some 9, metadata := [("_replicatedTime", MVal.i 0)] }

/-- A source object with `last_updated_time = 0` (falsy but not `None`). -/
def tieSrc : Obj := { id := some 1, last_updated_time := some 0 }

/-- A source object with a changed timestamp, for the update witness. -/
def freshSrc : Obj := { id := some 1, last_updated_time := some 10 }

/-- A source object whose internal id is `0` (falsy in Python). -/
def zeroIdSrc : Obj := { id := some 0, metadata := [("color", MVal.s "blue")] }

/-- A destination object carrying metadata stamped from `zeroIdSrc`. -/
def zeroIdDst : Obj := { id := some 77, metadata := new_metadata zeroIdSrc "proj-a" 5 }

/-- A destination object whose `_replicatedSource` entry is the empty string
(present but falsy). -/
def blankSourceDst : Obj := { id := some 7, metadata := [("_replicatedSource", MVal.s "")] }

/-- A destination object whose `_replicatedInternalId` entry is the integer 0
(present, an integer, but falsy). -/
def staleZeroDst : Obj := { id := some 8, metadata := [("_replicatedInternalId", MVal.i 0)] }

/-- A plain object for the retry witness. -/
def plainObj : Obj := { id := some 42 }

/-- A destination object stamped from `rootAsset` (provenance round-trip). -/
def stampedDst : Obj := { id := some 50, metadata := new_metadata rootAsset "proj-a" 77 }

/-- A source object with no external id and no destination counterpart. -/
def noExtSrc : Obj := { id := some 6 }

/-- Per-attempt behavior of a write callee that times out once and then
succeeds. -/
def gW : Nat → Except PyErr (List Obj) :=
  fun i => if i = 0 then Except.error PyErr.readTimeout else Except.ok [plainObj]

/-! ### Association-list (Python dict) lemmas -/

theorem alGet_append {α β : Type} [DecidableEq α] (m m' : List (α × β)) (k : α) :
    alGet (m ++ m') k =
      (match alGet m k with
       | some v => some v
       | Option.none => alGet m' k) := by
  induction m with
  | nil => simp [alGet]
  | cons p rest ih =>
    by_cases h : p.1 = k <;> simp [alGet, h, ih]

theorem alGet_eq_none_of_any_eq_false {α β : Type} [DecidableEq α]
    {m : List (α × β)} {k : α} (h : m.any (fun p => decide (p.1 = k)) = false) :
    alGet m k = Option.none := by
  induction m with
  | nil => simp [alGet]
  | cons p rest ih =>
    simp only [List.any_cons, Bool.or_eq_false_iff] at h
    have hp : ¬ p.1 = k := by simpa using h.1
    simp [alGet, hp, ih h.2]

theorem isSome_alGet_of_any {α β : Type} [DecidableEq α]
    {m : List (α × β)} {k : α} (h : m.any (fun p => decide (p.1 = k)) = true) :
    (alGet m k).isSome = true := by
  induction m with
  | nil => simp at h
  | cons p rest ih =>
    by_cases hp : p.1 = k
    · simp [alGet, hp]
    · rw [alGet, if_neg hp]
      refine ih ?_
      simp only [List.any_cons, Bool.or_eq_true] at h
      rcases h with h | h
      · exact absurd (of_decide_eq_true h) hp
      · exact h

theorem alGet_map_set {α β : Type} [DecidableEq α]
    (m : List (α × β)) (k : α) (v : β) (k' : α) :
    alGet (m.map (fun p => if p.1 = k then (k, v) else p)) k' =
      if k' = k then (alGet m k).map (fun _ => v) else alGet m k' := by
  induction m with
  | nil => simp [alGet]
  | cons p rest ih =>
    simp only [List.map_cons]
    by_cases hp : p.1 = k
    · rw [if_pos hp]
      by_cases hk : k' = k
      · subst hk
        simp [alGet, hp]
      · have hk' : ¬ k = k' := fun h => hk h.symm
        have hpk' : ¬ p.1 = k' := fun h => hk (hp.symm.trans h).symm
        simp [alGet, hk, hk', hpk', ih]
    · rw [if_neg hp]
      by_cases hk : k' = k
      · subst hk
        simp [alGet, hp, ih]
      · simp [alGet, hp, hk, ih]

theorem alGet_alSet {α β : Type} [DecidableEq α]
    (m : List (α × β)) (k : α) (v : β) (k' : α) :
    alGet (alSet m k v) k' = if k' = k then some v else alGet m k' := by
  unfold alSet
  cases hAny : m.any (fun p => decide (p.1 = k)) with
  | true =>
    rw [if_pos rfl, alGet_map_set]
    by_cases hk : k' = k
    · rw [if_pos hk, if_pos hk]
      have hs := isSome_alGet_of_any hAny
      cases hv : alGet m k with
      | none => rw [hv] at hs; simp at hs
      | some w => rfl
    · rw [if_neg hk, if_neg hk]
  | false =>
    rw [if_neg (by simp), alGet_append]
    by_cases hk : k' = k
    · rw [hk, alGet_eq_none_of_any_eq_false hAny]
      simp [alGet]
    · rw [if_neg hk]
      cases hv : alGet m k' with
      | none =>
        have hkk : ¬ k = k' := fun h => hk h.symm
        simp [alGet, hkk]
      | some w => rfl

theorem alSet_isEmpty {α β : Type} [DecidableEq α] (m : List (α × β)) (k : α) (v : β) :
    (alSet m k v).isEmpty = false := by
  unfold alSet
  cases hAny : m.any (fun p => decide (p.1 = k)) with
  | true =>
    cases m with
    | nil => simp at hAny
    | cons p rest => simp
  | false => simp

/-! ### C5: `get_asset_ids` -/

theorem get_asset_ids_go_eq (m : SrcDst) (l : List Int) :
    get_asset_ids_go m l =
      (l.filter (fun i => (alGet m i).isSome)).map (fun i => (alGet m i).getD Option.none) := by
  induction l with
  | nil => simp [get_asset_ids_go]
  | cons i rest ih =>
    cases h : alGet m i with
    | none => simp [get_asset_ids_go, h, ih, List.filter_cons]
    | some d => simp [get_asset_ids_go, h, ih, List.filter_cons]

theorem get_asset_ids_go_mem (m : SrcDst) (l : List Int) (z : Option Int)
    (hz : z ∈ get_asset_ids_go m l) : ∃ i ∈ l, alGet m i = some z := by
  induction l with
  | nil => simp [get_asset_ids_go] at hz
  | cons i rest ih =>
    cases h : alGet m i with
    | none =>
      rw [get_asset_ids_go, h] at hz
      obtain ⟨j, hj, hjz⟩ := ih hz
      exact ⟨j, List.mem_cons_of_mem i hj, hjz⟩
    | some d =>
      rw [get_asset_ids_go, h] at hz
      rcases List.mem_cons.mp hz with rfl | hz'
      · exact ⟨i, List.mem_cons_self i rest, h⟩
      · obtain ⟨j, hj, hjz⟩ := ih hz'
        exact ⟨j, List.mem_cons_of_mem i hj, hjz⟩

/-- C5.  Reference resolution omission: `get_asset_ids` maps a `None` id list
to `None`; on a real list it returns exactly the map's values at the input ids
that are present as keys, in input order (the filter-then-map normal form),
silently dropping unresolvable ids; every output element is a value the map
holds at some input id, so no raw source id is passed through, and the
function is total (never raises). -/
theorem get_asset_ids_spec (m : SrcDst) (l : List Int) :
    get_asset_ids Option.none m = Option.none ∧
    get_asset_ids (some l) m =
      some ((l.filter (fun i => (alGet m i).isSome)).map
        (fun i => (alGet m i).getD Option.none)) ∧
    (∀ z ∈ get_asset_ids_go m l, ∃ i ∈ l, alGet m i = some z) := by
  refine ⟨rfl, ?_, fun z hz => get_asset_ids_go_mem m l z hz⟩
  rw [get_asset_ids, get_asset_ids_go_eq]

/-- Witness for C5 at a concrete map and input list. -/
theorem get_asset_ids_spec_witness :
    get_asset_ids (some [4, 5, 6]) [(4, some 40), (6, some 60)] =
      some [some 40, some 60] :=
  ((get_asset_ids_spec [(4, some 40), (6, some 60)] [4, 5, 6]).2.1).trans (by decide)

/-! ### C7: `_get_chunk` -/

theorem chunkStart_succ (N c k : Nat) :
    chunkStart N c (k + 1) =
      chunkStart N c k + N / c + (if k < N % c then 1 else 0) := by
  unfold chunkStart
  rcases Nat.lt_or_ge k (N % c) with h | h
  · rw [Nat.min_eq_left h, Nat.min_eq_left (Nat.le_of_lt h), if_pos h, Nat.succ_mul]
    simp only [Nat.succ_eq_add_one]
    ring
  · rw [Nat.min_eq_right (Nat.le_succ_of_le h), Nat.min_eq_right h,
      if_neg (Nat.not_lt.mpr h), Nat.succ_mul]
    ring

theorem chunkStart_le (N c : Nat) {k j : Nat} (h : k ≤ j) :
    chunkStart N c k ≤ chunkStart N c j := by
  unfold chunkStart
  exact Nat.add_le_add (Nat.mul_le_mul_right _ h) (min_le_min h le_rfl)

theorem chunkStart_last (N c : Nat) (hc : 0 < c) : chunkStart N c c = N := by
  unfold chunkStart
  have hr : N % c < c := Nat.mod_lt _ hc
  rw [Nat.min_eq_right (Nat.le_of_lt hr)]
  exact Nat.div_add_mod N c

theorem get_chunk_eq_slice {α : Type} (lst : List α) (c k : Nat) :
    _get_chunk lst c k =
      (lst.drop (chunkStart lst.length c k)).take
        (lst.length / c + (if k < lst.length % c then 1 else 0)) := by
  simp only [_get_chunk]
  rw [chunkStart]
  generalize k * (lst.length / c) + min k (lst.length % c) = S
  generalize (if k < lst.length % c then 1 else 0) = e
  rw [Nat.add_assoc, Nat.add_sub_cancel_left]

theorem get_chunk_join_take {α : Type} (lst : List α) (c : Nat) (j : Nat) :
    ((List.range j).map (fun k => _get_chunk lst c k)).flatten =
      lst.take (chunkStart lst.length c j) := by
  induction j with
  | zero => simp [chunkStart]
  | succ j ih =>
    rw [List.range_succ, List.map_append, List.flatten_append, ih]
    simp only [List.map_cons, List.map_nil, List.flatten_cons, List.flatten_nil,
      List.append_nil]
    rw [get_chunk_eq_slice, ← List.take_add, chunkStart_succ]
    congr 1
    ring

theorem get_chunk_length {α : Type} (lst : List α) (c : Nat) (hc : 0 < c)
    {k : Nat} (hk : k < c) :
    (_get_chunk lst c k).length =
      lst.length / c + (if k < lst.length % c then 1 else 0) := by
  rw [get_chunk_eq_slice]
  simp only [List.length_take, List.length_drop]
  have hstep := chunkStart_succ lst.length c k
  have h1 := chunkStart_le lst.length c (show k + 1 ≤ c from hk)
  have h2 := chunkStart_last lst.length c hc
  generalize he : (if k < lst.length % c then 1 else 0) = e at hstep ⊢
  have hle : lst.length / c + e ≤ lst.length - chunkStart lst.length c k := by omega
  rw [Nat.min_eq_left hle]

/-- C7.  Chunk partition completeness: for `1 ≤ num_chunks ≤ lst.length`,
concatenating `_get_chunk lst num_chunks k` for `k = 0 .. num_chunks - 1`
reconstructs `lst` exactly, and any two chunk lengths differ by at most 1. -/
theorem get_chunk_partition {α : Type} (lst : List α) (num_chunks : Nat)
    (h1 : 1 ≤ num_chunks) (h2 : num_chunks ≤ lst.length) :
    ((List.range num_chunks).map (fun k => _get_chunk lst num_chunks k)).flatten = lst ∧
    (∀ j k, j < num_chunks → k < num_chunks →
      (_get_chunk lst num_chunks j).length ≤ (_get_chunk lst num_chunks k).length + 1) := by
  constructor
  · rw [get_chunk_join_take, chunkStart_last _ _ h1, List.take_length]
  · intro j k hj hk
    rw [get_chunk_length lst num_chunks h1 hj, get_chunk_length lst num_chunks h1 hk]
    split_ifs <;> omega

/-- Witness for C7: a 7-element list in 3 chunks. -/
theorem get_chunk_partition_witness :
    ((List.range 3).map (fun k => _get_chunk [10, 20, 30, 40, 50, 60, 70] 3 k)).flatten =
      [10, 20, 30, 40, 50, 60, 70] ∧
    (_get_chunk [10, 20, 30, 40, 50, 60, 70] 3 0).length ≤
      (_get_chunk [10, 20, 30, 40, 50, 60, 70] 3 2).length + 1 :=
  ⟨(get_chunk_partition [10, 20, 30, 40, 50, 60, 70] 3 (by decide) (by decide)).1,
    (get_chunk_partition [10, 20, 30, 40, 50, 60, 70] 3 (by decide) (by decide)).2
      0 2 (by decide) (by decide)⟩

/-! ### `make_objects_batch` lemmas (C1, C2, C10) -/

theorem mob_singleton (cre : Obj → SrcDst → Except PyErr Obj)
    (upd : Obj → Obj → SrcDst → Except PyErr Obj) (m : List (Int × Obj))
    (ids : SrcDst) (flt : List Obj) (s : Obj) :
    make_objects_batch cre upd [s] m ids flt =
      match make_objects_batch_step cre upd m ids flt s with
      | Except.error e => Except.error e
      | Except.ok (Batched.toCreate o) => Except.ok ([o], [], [])
      | Except.ok (Batched.toUpdate o) => Except.ok ([], [o], [])
      | Except.ok (Batched.unchanged o) => Except.ok ([], [], [o]) := by
  cases h : make_objects_batch_step cre upd m ids flt s with
  | error e => simp [make_objects_batch, h]
  | ok b => cases b <;> simp [make_objects_batch, h]

/-- C1 (amended).  Change detection: for a source object `s` whose id maps to
a destination object `d` whose `_replicatedTime` metadata parses to the
integer `t`, `make_objects_batch` produces an update exactly when
`s.last_updated_time` is `None`, or `0` (Python falsiness, the amendment the
counterexample forces), or strictly greater than `t`; otherwise no update is
produced and the destination object `d` (not `s`) is appended to the
unchanged list. -/
theorem mob_update_iff (cre : Obj → SrcDst → Except PyErr Obj)
    (upd : Obj → Obj → SrcDst → Except PyErr Obj) (m : List (Int × Obj))
    (ids : SrcDst) (flt : List Obj) (s d u : Obj) (tv : MVal) (t : Int)
    (hid : idGet m s.id = some d)
    (htv : alGet d.metadata "_replicatedTime" = some tv)
    (ht : mvalInt tv = Except.ok t)
    (hupd : upd s d ids = Except.ok u) :
    ((s.last_updated_time = Option.none ∨ s.last_updated_time = some 0 ∨
        (∃ v, s.last_updated_time = some v ∧ t < v)) →
      make_objects_batch cre upd [s] m ids flt = Except.ok ([], [u], [])) ∧
    (∀ v, s.last_updated_time = some v → v ≠ 0 → v ≤ t →
      make_objects_batch cre upd [s] m ids flt = Except.ok ([], [], [d])) := by
  constructor
  · intro hcond
    rw [mob_singleton]
    have hstep : make_objects_batch_step cre upd m ids flt s =
        Except.ok (Batched.toUpdate u) := by
      rw [make_objects_batch_step, hid]
      rcases hcond with h | h | ⟨v, hv, hlt⟩
      · simp [h, pyTruthyOptInt, hupd]
      · simp [h, pyTruthyOptInt, hupd]
      · by_cases hv0 : v = 0
        · subst hv0; simp [hv, pyTruthyOptInt, hupd]
        · simp [hv, pyTruthyOptInt, hv0, dix, htv, ht, hupd, hlt]
    rw [hstep]
  · intro v hv hv0 hle
    rw [mob_singleton]
    have hstep : make_objects_batch_step cre upd m ids flt s =
        Except.ok (Batched.unchanged d) := by
      rw [make_objects_batch_step, hid]
      simp [hv, pyTruthyOptInt, hv0, dix, htv, ht, Int.not_lt.mpr hle]
    rw [hstep]

/-- C2.  Partition: every successful `make_objects_batch` run classifies each
source object into exactly one of the three output lists, so the three lengths
sum to the input length; and with a non-empty `src_filter`, a source object
with no id-mapped counterpart whose `external_id` occurs in the filter batch
is appended to the unchanged list, never to the create list. -/
theorem mob_partition (cre : Obj → SrcDst → Except PyErr Obj)
    (upd : Obj → Obj → SrcDst → Except PyErr Obj) (m : List (Int × Obj))
    (ids : SrcDst) (flt : List Obj) (s : Obj) :
    (∀ src c u n, make_objects_batch cre upd src m ids flt = Except.ok (c, u, n) →
      c.length + u.length + n.length = src.length) ∧
    (idGet m s.id = Option.none → flt ≠ [] →
      (∃ f ∈ flt, f.external_id = s.external_id) →
      make_objects_batch cre upd [s] m ids flt = Except.ok ([], [], [s])) := by
  constructor
  · intro src
    induction src with
    | nil =>
      intro c u n h
      rw [make_objects_batch] at h
      simp only [Except.ok.injEq, Prod.mk.injEq] at h
      obtain ⟨h1, h2, h3⟩ := h
      subst h1; subst h2; subst h3
      rfl
    | cons a rest ih =>
      intro c u n h
      rw [make_objects_batch] at h
      cases hs : make_objects_batch_step cre upd m ids flt a with
      | error e => simp [hs] at h
      | ok b =>
        cases hr : make_objects_batch cre upd rest m ids flt with
        | error e => simp [hs, hr] at h
        | ok r =>
          obtain ⟨c', u', n'⟩ := r
          have hlen := ih c' u' n' hr
          cases b with
          | toCreate o =>
            simp only [hs, hr, Except.ok.injEq, Prod.mk.injEq] at h
            obtain ⟨h1, h2, h3⟩ := h
            subst h1; subst h2; subst h3
            simp only [List.length_cons]
            omega
          | toUpdate o =>
            simp only [hs, hr, Except.ok.injEq, Prod.mk.injEq] at h
            obtain ⟨h1, h2, h3⟩ := h
            subst h1; subst h2; subst h3
            simp only [List.length_cons]
            omega
          | unchanged o =>
            simp only [hs, hr, Except.ok.injEq, Prod.mk.injEq] at h
            obtain ⟨h1, h2, h3⟩ := h
            subst h1; subst h2; subst h3
            simp only [List.length_cons]
            omega
  · intro hid hne hex
    rw [mob_singleton]
    have hemp : flt.isEmpty = false := by
      cases flt with
      | nil => exact absurd rfl hne
      | cons a l => rfl
    obtain ⟨f, hf, hfe⟩ := hex
    have hany : flt.any (fun f => decide (f.external_id = s.external_id)) = true :=
      List.any_eq_true.mpr ⟨f, hf, by simp [hfe]⟩
    have hstep : make_objects_batch_step cre upd m ids flt s =
        Except.ok (Batched.unchanged s) := by
      rw [make_objects_batch_step, hid]
      simp [hemp, hany]
    rw [hstep]

/-- C10.  External-id fallback on `None`: with a non-empty `src_filter`, a
source object with no id-mapped counterpart and `external_id = None` is
classified unchanged (never created) whenever some filter object also has
`external_id = None`, and the object appended to the unchanged list is the
source object itself. -/
theorem mob_none_external_id_fallback (cre : Obj → SrcDst → Except PyErr Obj)
    (upd : Obj → Obj → SrcDst → Except PyErr Obj) (m : List (Int × Obj))
    (ids : SrcDst) (flt : List Obj) (s : Obj)
    (hid : idGet m s.id = Option.none) (hs : s.external_id = Option.none)
    (hne : flt ≠ []) (hf : ∃ f ∈ flt, f.external_id = Option.none) :
    make_objects_batch cre upd [s] m ids flt = Except.ok ([], [], [s]) := by
  rw [mob_singleton]
  have hemp : flt.isEmpty = false := by
    cases flt with
    | nil => exact absurd rfl hne
    | cons a l => rfl
  obtain ⟨f, hff, hfe⟩ := hf
  have hany : flt.any (fun f => decide (f.external_id = s.external_id)) = true :=
    List.any_eq_true.mpr ⟨f, hff, by simp [hfe, hs]⟩
  have hstep : make_objects_batch_step cre upd m ids flt s =
      Except.ok (Batched.unchanged s) := by
    rw [make_objects_batch_step, hid]
    simp [hemp, hany]
  rw [hstep]

/-! ### C4: `retry` -/

/-- C4.  Retry wrapper, with the callee's per-attempt behavior given by
`g : Nat → _` and the threaded counter recording how many calls were made:
an empty object list returns `ok []` with zero calls made (true for every
callee); a first-call success is returned after one call; a first-call
non-timeout error propagates after one call with no further attempt; three
consecutive `ReadTimeout`s return the never-assigned `ret = []` (no raise)
after exactly 3 calls; and a timeout followed by a success returns that
success after 2 calls. -/
theorem retry_spec (g : Nat → Except PyErr (List Obj)) (objects r : List Obj)
    (e : PyErr) (hne : objects ≠ []) (he : e ≠ PyErr.readTimeout) :
    (retry (fun _ n => (g n, n + 1)) [] 0 = (Except.ok [], 0)) ∧
    (g 0 = Except.ok r →
      retry (fun _ n => (g n, n + 1)) objects 0 = (Except.ok r, 1)) ∧
    (g 0 = Except.error e →
      retry (fun _ n => (g n, n + 1)) objects 0 = (Except.error e, 1)) ∧
    ((∀ i, i < 3 → g i = Except.error PyErr.readTimeout) →
      retry (fun _ n => (g n, n + 1)) objects 0 = (Except.ok [], 3)) ∧
    (g 0 = Except.error PyErr.readTimeout → g 1 = Except.ok r →
      retry (fun _ n => (g n, n + 1)) objects 0 = (Except.ok r, 2)) := by
  have hemp : objects.isEmpty = false := by
    cases objects with
    | nil => exact absurd rfl hne
    | cons a l => rfl
  refine ⟨rfl, ?_, ?_, ?_, ?_⟩
  · intro h0
    rw [retry, if_neg (by simp [hemp]), show (3 : Nat) = 2 + 1 from rfl, retryGo]
    simp [h0]
  · intro h0
    rw [retry, if_neg (by simp [hemp]), show (3 : Nat) = 2 + 1 from rfl, retryGo]
    cases e with
    | readTimeout => exact absurd rfl he
    | keyError => simp [h0]
    | valueError => simp [h0]
    | attributeError => simp [h0]
    | outOfFuel => simp [h0]
  · intro hall
    have g0 := hall 0 (by omega)
    have g1 := hall 1 (by omega)
    have g2 := hall 2 (by omega)
    rw [retry, if_neg (by simp [hemp]), show (3 : Nat) = 2 + 1 from rfl, retryGo]
    simp only [g0]
    rw [show (2 : Nat) = 1 + 1 from rfl, retryGo]
    simp only [g1]
    rw [show (1 : Nat) = 0 + 1 from rfl, retryGo]
    simp only [g2]
    rw [retryGo]
  · intro h0 h1
    rw [retry, if_neg (by simp [hemp]), show (3 : Nat) = 2 + 1 from rfl, retryGo]
    simp only [h0]
    rw [show (2 : Nat) = 1 + 1 from rfl, retryGo]
    simp [h1]

/-! ### C9 (amended): missing parent raises KeyError -/

/-- C9 (amended).  When an asset's create failed at some depth, its source id
never enters the resolver map; building one of its children at the next depth
then raises KeyError from `src_id_dst_map[src_asset.parent_id]`, and the
matcher call at that depth propagates the error — the walk halts rather than
producing the child parent-less. -/
theorem orphan_child_raises (m : SrcDst) (idm : List (Int × Obj)) (p : Int)
    (s : Obj) (proj : String) (rt : Int) (depth : Nat)
    (upd : Obj → Obj → SrcDst → Except PyErr Obj)
    (hd : 0 < depth) (hp : s.parent_id = some p) (hm : alGet m p = Option.none)
    (hid : idGet idm s.id = Option.none) :
    build_asset_create s m proj rt depth = Except.error PyErr.keyError ∧
    make_objects_batch (fun a mm => build_asset_create a mm proj rt depth) upd
      [s] idm m [] = Except.error PyErr.keyError := by
  have hr : resolve_parent_id s m depth = Except.error PyErr.keyError := by
    rw [resolve_parent_id, if_pos hd, hp]
    simp [hm]
  have hb : build_asset_create s m proj rt depth = Except.error PyErr.keyError := by
    rw [build_asset_create, hr]
  refine ⟨hb, ?_⟩
  rw [mob_singleton]
  have hstep : make_objects_batch_step
      (fun a mm => build_asset_create a mm proj rt depth) upd idm m [] s =
      Except.error PyErr.keyError := by
    rw [make_objects_batch_step, hid]
    simp [hb]
  rw [hstep]

/-! ### C3 (amended): provenance stamp and round-trip -/

/-- C3 (amended).  `new_metadata` sets exactly the three reserved keys — to
the source project, the runtime, and the source object's id — and leaves
every other key at its original value (the embedding is a pure value, so the
source metadata is untouched); and a destination object carrying metadata
stamped from a source object whose id is a nonzero integer (the amendment the
counterexample forces: a falsy id `0` is dropped by the dict-comprehension
filter) is mapped back from that id by `make_id_object_map`. -/
theorem new_metadata_spec (obj d : Obj) (p : String) (t : Int) (k : String) (n : Int) :
    alGet (new_metadata obj p t) "_replicatedSource" = some (MVal.s p) ∧
    alGet (new_metadata obj p t) "_replicatedTime" = some (MVal.i t) ∧
    alGet (new_metadata obj p t) "_replicatedInternalId" = some (mvalOfOptInt obj.id) ∧
    (k ≠ "_replicatedSource" → k ≠ "_replicatedTime" → k ≠ "_replicatedInternalId" →
      alGet (new_metadata obj p t) k = alGet obj.metadata k) ∧
    (obj.id = some n → n ≠ 0 → d.metadata = new_metadata obj p t →
      make_id_object_map [d] = Except.ok [(n, d)]) := by
  have hiid : alGet (new_metadata obj p t) "_replicatedInternalId" =
      some (mvalOfOptInt obj.id) := by
    rw [new_metadata, alGet_alSet, if_pos rfl]
  refine ⟨?_, ?_, hiid, ?_, ?_⟩
  · rw [new_metadata, alGet_alSet, if_neg (by decide), alGet_alSet, if_neg (by decide),
      alGet_alSet, if_pos rfl]
  · rw [new_metadata, alGet_alSet, if_neg (by decide), alGet_alSet, if_pos rfl]
  · intro h1 h2 h3
    rw [new_metadata, alGet_alSet, if_neg h3, alGet_alSet, if_neg h2, alGet_alSet, if_neg h1]
  · intro hid hn hd
    have hemp : d.metadata.isEmpty = false := by
      rw [hd, new_metadata]; exact alSet_isEmpty _ _ _
    have hget : alGet d.metadata "_replicatedInternalId" = some (MVal.i n) := by
      rw [hd, hiid, hid]; rfl
    simp [make_id_object_map, make_id_object_map_go, hemp, hget, pyTruthy, hn,
      mvalInt, alSet]

/-! ### C6 (amended): deletion-set calculators -/

theorem fins_nrd_eq (dst : List Obj) :
    find_objects_to_delete_not_replicated_in_dst dst =
      (dst.filter (fun o => o.metadata.isEmpty ||
        !pyTruthy (alGet o.metadata "_replicatedSource"))).map (fun o => o.id) := by
  induction dst with
  | nil => rfl
  | cons o rest ih =>
    cases hc : (o.metadata.isEmpty || !pyTruthy (alGet o.metadata "_replicatedSource")) with
    | true =>
      simp [find_objects_to_delete_not_replicated_in_dst, hc, List.filter_cons, ih]
    | false =>
      simp [find_objects_to_delete_not_replicated_in_dst, hc, List.filter_cons, ih]

theorem fins_go_mem (sids : List (Option Int)) (dst : List Obj)
    (out : List (Option Int)) (y : Option Int)
    (h : find_if_not_in_src_go sids dst = Except.ok out) :
    y ∈ out ↔ ∃ o ∈ dst, o.id = y ∧
      ((!o.metadata.isEmpty) && pyTruthy (alGet o.metadata "_replicatedInternalId")) = true ∧
      ∃ v, alGet o.metadata "_replicatedInternalId" = some v ∧
        ∃ kk, mvalInt v = Except.ok kk ∧
          sids.any (fun q => decide (q = some kk)) = false := by
  induction dst generalizing out with
  | nil =>
    rw [find_if_not_in_src_go] at h
    injection h with h
    subst h
    simp
  | cons o rest ih =>
    rw [find_if_not_in_src_go] at h
    by_cases hc : ((!o.metadata.isEmpty) &&
        pyTruthy (alGet o.metadata "_replicatedInternalId")) = true
    case neg =>
      rw [if_neg hc] at h
      rw [ih out h]
      constructor
      · rintro ⟨o', ho', rest'⟩
        exact ⟨o', List.mem_cons_of_mem o ho', rest'⟩
      · rintro ⟨o', ho', hoy, hcond, hrest⟩
        rcases List.mem_cons.mp ho' with rfl | ho''
        · exact absurd hcond hc
        · exact ⟨o', ho'', hoy, hcond, hrest⟩
    case pos =>
      rw [if_pos hc] at h
      have hsome : (alGet o.metadata "_replicatedInternalId").isSome = true := by
        cases hg : alGet o.metadata "_replicatedInternalId" with
        | none => rw [hg] at hc; simp [pyTruthy] at hc
        | some v => rfl
      obtain ⟨v, hv⟩ := Option.isSome_iff_exists.mp hsome
      simp only [hv] at h
      cases hk : mvalInt v with
      | error e => simp [hk] at h
      | ok kk =>
        simp only [hk] at h
        cases hr : find_if_not_in_src_go sids rest with
        | error e => simp [hr] at h
        | ok r =>
          simp only [hr] at h
          cases hin : sids.any (fun q => decide (q = some kk)) with
          | true =>
            rw [hin, if_pos rfl] at h
            injection h with h
            subst h
            rw [ih r hr]
            constructor
            · rintro ⟨o', ho', rest'⟩
              exact ⟨o', List.mem_cons_of_mem o ho', rest'⟩
            · rintro ⟨o', ho', hoy, hcond, v', hv', kk', hk', hin'⟩
              rcases List.mem_cons.mp ho' with rfl | ho''
              · rw [hv] at hv'
                injection hv' with hv'
                subst hv'
                rw [hk] at hk'
                injection hk' with hk'
                subst hk'
                rw [hin] at hin'
                simp at hin'
              · exact ⟨o', ho'', hoy, hcond, v', hv', kk', hk', hin'⟩
          | false =>
            rw [hin, if_neg (by simp)] at h
            injection h with h
            subst h
            rw [List.mem_cons, ih r hr]
            constructor
            · rintro (rfl | ⟨o', ho', rest'⟩)
              · exact ⟨o, List.mem_cons_self o rest, rfl, hc, v, hv, kk, hk, hin⟩
              · exact ⟨o', List.mem_cons_of_mem o ho', rest'⟩
            · rintro ⟨o', ho', hoy, hcond, v', hv', kk', hk', hin'⟩
              rcases List.mem_cons.mp ho' with rfl | ho''
              · left; exact hoy.symm
              · right; exact ⟨o', ho'', hoy, hcond, v', hv', kk', hk', hin'⟩

/-- C6 (amended).  Deletion-set calculators as pure set computations:
a successful `find_objects_to_delete_if_not_in_src` returns precisely the ids
of destination objects carrying a truthy `_replicatedInternalId` (the
amendment the counterexample forces: a falsy value such as the integer 0 is
skipped) whose integer value is not among the source object ids; and
`find_objects_to_delete_not_replicated_in_dst` returns precisely the ids of
destination objects whose metadata is empty or whose `_replicatedSource`
entry is falsy (absent, or present but empty — the second amendment);
neither performs any delete (both are pure). -/
theorem deletion_sets_spec (src dst : List Obj) (out : List (Option Int)) (y : Option Int)
    (h : find_objects_to_delete_if_not_in_src src dst = Except.ok out) :
    (y ∈ out ↔ ∃ o ∈ dst, o.id = y ∧
      ((!o.metadata.isEmpty) && pyTruthy (alGet o.metadata "_replicatedInternalId")) = true ∧
      ∃ v, alGet o.metadata "_replicatedInternalId" = some v ∧
        ∃ kk, mvalInt v = Except.ok kk ∧ ¬ ∃ so ∈ src, so.id = some kk) ∧
    find_objects_to_delete_not_replicated_in_dst dst =
      (dst.filter (fun o => o.metadata.isEmpty ||
        !pyTruthy (alGet o.metadata "_replicatedSource"))).map (fun o => o.id) := by
  refine ⟨?_, fins_nrd_eq dst⟩
  rw [find_objects_to_delete_if_not_in_src] at h
  have hm := fins_go_mem (src.map (fun o => o.id)) dst out y h
  rw [hm]
  have hconv : ∀ kk : Int,
      ((src.map (fun o => o.id)).any (fun q => decide (q = some kk)) = false) ↔
        ¬ ∃ so ∈ src, so.id = some kk := by
    intro kk
    rw [← Bool.not_eq_true, List.any_eq_true]
    simp
  constructor
  · rintro ⟨o', ho', hoy, hcond, v', hv', kk', hk', hany⟩
    exact ⟨o', ho', hoy, hcond, v', hv', kk', hk', (hconv kk').mp hany⟩
  · rintro ⟨o', ho', hoy, hcond, v', hv', kk', hk', hnot⟩
    exact ⟨o', ho', hoy, hcond, v', hv', kk', hk', (hconv kk').mpr hnot⟩

/-! ### Closed scenario theorems and remaining witnesses -/

/-- C8.  Hierarchy depth ordering: replicating the 3-level source tree
(ids 1 → 2 → 3) into an initially empty destination with the §6-contract
store (fresh ids from 100) assigns destination ids 100, 101, 102 depth by
depth, and every created non-root asset's `parent_id` equals the destination
id assigned to its own parent in the same run (101's parent is 100, 102's is
101) — never a source id or a placeholder — because each depth's mapping is
folded into the resolver before the next depth is matched or built. -/
theorem create_hierarchy_depth_order :
    (create_hierarchy specClient [rootAsset, childAsset, grandAsset] []
        "proj" 1000 ⟨100, []⟩).toOption.map
      (fun res => (res.1, res.2.store.map (fun a => (a.id, a.parent_id)))) =
      some ([(1, some 100), (2, some 101), (3, some 102)],
        [(some 100, Option.none), (some 101, some 100), (some 102, some 101)]) := by
  decide

/-- C1 counterexample.  The claim states that a source object with
`last_updated_time <= _replicatedTime` (here `0 <= 0`) is appended to the
unchanged list and no update is produced; the code instead treats the falsy
timestamp `0` like `None` (`not src_obj.last_updated_time`) and produces an
update, leaving the unchanged list empty. -/
theorem mob_zero_lut_counterexample :
    make_objects_batch (fun a _ => Except.ok a) (fun a _ _ => Except.ok a)
      [tieSrc] [(1, tieDst)] [] [] = Except.ok ([], [tieSrc], []) ∧
    make_objects_batch (fun a _ => Except.ok a) (fun a _ _ => Except.ok a)
      [tieSrc] [(1, tieDst)] [] [] ≠ Except.ok ([], [], [tieSrc]) ∧
    make_objects_batch (fun a _ => Except.ok a) (fun a _ _ => Except.ok a)
      [tieSrc] [(1, tieDst)] [] [] ≠ Except.ok ([], [], [tieDst]) := by
  refine ⟨?_, ?_, ?_⟩ <;> decide

/-- C3 counterexample.  The claim states that for any destination object `d`
stamped from source `s`, `make_id_object_map [d]` maps `s.id` to `d`; for
`s.id = 0` the stamped `_replicatedInternalId` value `0` is falsy, the
dict-comprehension filter drops `d`, and the map is empty. -/
theorem new_metadata_roundtrip_counterexample :
    make_id_object_map [zeroIdDst] = Except.ok [] ∧
    make_id_object_map [zeroIdDst] ≠ Except.ok [(0, zeroIdDst)] := by
  refine ⟨?_, ?_⟩ <;> decide

/-- C6 counterexample.  The claim says `find_objects_to_delete_if_not_in_src`
returns the ids of destination objects carrying `_replicatedInternalId` with
an integer value not among the source ids — but for the value `0` (an integer
not among the empty source ids) the falsy-value check skips the object and
nothing is returned; and it says `find_objects_to_delete_not_replicated_in_dst`
returns objects lacking `_replicatedSource` — but an object carrying the key
with the empty-string value is returned anyway. -/
theorem deletion_sets_counterexample :
    find_objects_to_delete_if_not_in_src [] [staleZeroDst] = Except.ok [] ∧
    find_objects_to_delete_if_not_in_src [] [staleZeroDst] ≠ Except.ok [some 8] ∧
    find_objects_to_delete_not_replicated_in_dst [blankSourceDst] = [some 7] ∧
    find_objects_to_delete_not_replicated_in_dst [blankSourceDst] ≠ [] := by
  refine ⟨?_, ?_, ?_, ?_⟩ <;> decide

/-- C9 counterexample.  The claim states that after a depth's create fails the
walk still completes without raising, producing the failed asset's child
parent-less; in the code, with a store whose creates keep timing out (so the
root is never created and never mapped), building the child at depth 1 raises
KeyError and the whole walk aborts with that error instead of completing. -/
theorem orphan_child_counterexample :
    create_hierarchy timeoutClient [rootAsset, childAsset] [] "proj" 1000 () =
      Except.error PyErr.keyError := by
  decide

/-- Witness for C1 (amended) at a changed source object (`10 > 0`). -/
theorem mob_update_iff_witness :
    make_objects_batch (fun a _ => Except.ok a) (fun a _ _ => Except.ok a)
      [freshSrc] [(1, tieDst)] [] [] = Except.ok ([], [freshSrc], []) :=
  (mob_update_iff (fun a _ => Except.ok a) (fun a _ _ => Except.ok a)
      [(1, tieDst)] [] [] freshSrc tieDst freshSrc (MVal.i 0) 0
      (by decide) (by decide) (by decide) (by decide)).1
    (Or.inr (Or.inr ⟨10, by decide, by decide⟩))

/-- Witness for C2 at a singleton input matched by external id through the
prior destination batch. -/
theorem mob_partition_witness :
    make_objects_batch (fun a _ => Except.ok a) (fun a _ _ => Except.ok a)
      [tieSrc] [] [] [plainObj] = Except.ok ([], [], [tieSrc]) :=
  (mob_partition (fun a _ => Except.ok a) (fun a _ _ => Except.ok a)
      [] [] [plainObj] tieSrc).2
    (by decide) (by decide) ⟨plainObj, by decide, by decide⟩

/-- Witness for C3 (amended): the stamped destination round-trips to source
id 1. -/
theorem new_metadata_spec_witness :
    make_id_object_map [stampedDst] = Except.ok [(1, stampedDst)] :=
  (new_metadata_spec rootAsset stampedDst "proj-a" 77 "x" 1).2.2.2.2
    (by decide) (by decide) rfl

/-- Witness for C4: one timeout then success returns the success after
exactly two calls. -/
theorem retry_spec_witness :
    retry (fun _ n => (gW n, n + 1)) [plainObj] 0 = (Except.ok [plainObj], 2) :=
  (retry_spec gW [plainObj] [plainObj] PyErr.keyError (by decide) (by decide)).2.2.2.2
    (by decide) (by decide)

/-- Witness for C5 is `get_asset_ids_spec_witness` above; witness for C6
(amended): the empty-source / blank-provenance destination pair. -/
theorem deletion_sets_spec_witness :
    find_objects_to_delete_not_replicated_in_dst [blankSourceDst, stampedDst] =
      [some 7] :=
  ((deletion_sets_spec [] [blankSourceDst, stampedDst] [some 50] (some 50)
      (by decide)).2).trans (by decide)

/-- Witness for C9 (amended): the child of the never-created root raises
KeyError at depth 1. -/
theorem orphan_child_raises_witness :
    build_asset_create childAsset [] "proj" 1000 1 = Except.error PyErr.keyError ∧
    make_objects_batch (fun a mm => build_asset_create a mm "proj" 1000 1)
      (fun a _ _ => Except.ok a) [childAsset] [] [] [] =
      Except.error PyErr.keyError :=
  orphan_child_raises [] [] 1 childAsset "proj" 1000 1 (fun a _ _ => Except.ok a)
    (by decide) (by decide) (by decide) (by decide)

/-- Witness for C10: a `None`-external-id source object against a filter
batch containing a `None`-external-id object. -/
theorem mob_none_external_id_fallback_witness :
    make_objects_batch (fun a _ => Except.ok a) (fun a _ _ => Except.ok a)
      [noExtSrc] [] [] [plainObj] = Except.ok ([], [], [noExtSrc]) :=
  mob_none_external_id_fallback (fun a _ => Except.ok a) (fun a _ _ => Except.ok a)
    [] [] [plainObj] noExtSrc (by decide) (by decide) (by decide)
    ⟨plainObj, by decide, by decide⟩

end CogniteReplicator
